import Mathlib

/-!
Formal model of the pdeck-g2b-collector harvesting pipeline.

The definitions below are a shallow embedding of the Python sources:

* `src/collectors/g2b/collect_all.py` — the main collection loop
  (`get_next_period`, the unconditional API-counter reset, the
  quota / anomaly / range stop rules, the finalization paths);
* `src/api-collector/collectors/g2b/collect_all.py` — the older variant
  (`load_progress`, `get_month_data`);
* `src/utils/g2b_client.py` — `G2BClient.fetch_paginated_data`;
* `src/utils/g2b_client_improved.py` — `G2BClientImproved.fetch_data`;
* `src/utils/db.py` — `load_progress`, `insert_contracts`.

External effects (HTTP, Google Drive, Slack, PostgreSQL) are modelled by
explicit environment scripts: a script says what the remote side answers;
the embedded control flow is translated line by line from the sources.
-/

/-- The fixed category enumeration `jobs = ["물품", "공사", "용역", "외자"]`
from `get_next_period` in `src/collectors/g2b/collect_all.py`. -/
def jobs : List String := ["물품", "공사", "용역", "외자"]

/-- `get_next_period(job, year, month)` from
`src/collectors/g2b/collect_all.py` lines 121-131: if `month < 12` stay in
the same category and year and advance the month; otherwise move to the
next category of `jobs` with month 1, wrapping from the last category to
the first with `year + 1`.  The Python indexing `jobs[idx + 1]` is total
because it is guarded by `idx < len(jobs) - 1`; it is rendered with `getD`
(the default is never reached). -/
def get_next_period (job : String) (year month : Nat) : String × Nat × Nat :=
  if month < 12 then (job, year, month + 1)
  else
    let idx := jobs.indexOf job
    if idx < jobs.length - 1 then (jobs.getD (idx + 1) "물품", year, 1)
    else (jobs.getD 0 "물품", year + 1, 1)

/-- The checkpoint record (`progress.json` / `progress` table row): fields
`current_job`, `current_year`, `current_month`, `daily_api_calls`,
`total_collected`, `last_run_date`. -/
structure Progress where
  current_job : String
  current_year : Nat
  current_month : Nat
  daily_api_calls : Nat
  total_collected : Nat
  last_run_date : String
deriving Repr, DecidableEq

/-- Step 5 of `main` in `src/collectors/g2b/collect_all.py` (lines
175-180): `progress["daily_api_calls"] = 0`, executed unconditionally at
the start of every run, with no comparison against any stored date. -/
def main_reset_api_counter (p : Progress) : Progress :=
  { p with daily_api_calls := 0 }

/-- Default checkpoint built by `load_progress` in
`src/api-collector/collectors/g2b/collect_all.py` (lines 88-95) when no
progress file exists.  The source field `current_업무` is rendered as
`current_job`. -/
def api_default_progress (today : String) : Progress :=
  { current_job := "물품", current_year := 2005, current_month := 1,
    daily_api_calls := 0, total_collected := 0, last_run_date := today }

/-- `load_progress` from `src/api-collector/collectors/g2b/collect_all.py`
lines 76-95: when the stored file exists, reset `daily_api_calls` to 0 and
stamp `last_run_date` exactly when the stored `last_run_date` differs from
today; otherwise return the stored record unchanged.  When no file exists,
return the default checkpoint. -/
def load_progress (stored : Option Progress) (today : String) : Progress :=
  match stored with
  | some p =>
      if p.last_run_date ≠ today then
        { p with daily_api_calls := 0, last_run_date := today }
      else p
  | none => api_default_progress today

/-- Default checkpoint returned by `load_progress` in `src/utils/db.py`
(lines 78-85) when the `progress` table query succeeds but holds no row. -/
def db_default_progress : Progress :=
  { current_job := "물품", current_year := 2016, current_month := 2,
    daily_api_calls := 0, total_collected := 0, last_run_date := "" }

/-- `load_progress` from `src/utils/db.py` lines 59-85: a fetched row is
passed through unchanged; the default is produced only when the query
succeeded and returned no row (a confirmed first-ever run). -/
def db_load_progress : Option Progress → Progress
  | some p => p
  | none => db_default_progress

/-- Outcome of one page request inside
`G2BClient.fetch_paginated_data` (`src/utils/g2b_client.py`).  The branch
structure follows lines 61-136: `netFail` is an exception raised by
`session.get` itself (timeout, connection error) — it reaches the outer
`except` before `api_calls_used += 1` runs; every other constructor is a
received HTTP response, for which line 72 increments `api_calls_used`
before any status or result-code inspection. -/
inductive PageOutcome where
  | netFail
  | httpError (status : Nat)
  | parseFail
  | resultOk (items : Nat)
  | resultNoData
  | resultErr (code : String)
deriving Repr, DecidableEq

/-- Result of `fetch_paginated_data`: total collected `item` elements,
the returned `api_calls_used` counter, plus two ghost tallies — the number
of HTTP requests actually issued and how many of them failed at the
network level before a response arrived. -/
structure FetchResult where
  items : Nat
  used : Nat
  requests : Nat
  netFails : Nat
deriving Repr, DecidableEq

/-- The `while page <= max_pages` loop of `fetch_paginated_data`
(`src/utils/g2b_client.py` lines 50-136), driven by a script assigning an
outcome to each page number.  The fuel argument is `max_pages - page + 1`:
the loop body runs only while `page ≤ max_pages`, and `page` increases by
one exactly on a successful page with at least one item; every other
outcome leaves the loop (`break`). -/
def fetchAux (script : Nat → PageOutcome) : Nat → Nat → FetchResult → FetchResult
  | 0, _, acc => acc
  | fuel + 1, page, acc =>
    match script page with
    | .netFail =>
        { acc with requests := acc.requests + 1, netFails := acc.netFails + 1 }
    | .httpError _ =>
        { acc with requests := acc.requests + 1, used := acc.used + 1 }
    | .parseFail =>
        { acc with requests := acc.requests + 1, used := acc.used + 1 }
    | .resultNoData =>
        { acc with requests := acc.requests + 1, used := acc.used + 1 }
    | .resultErr _ =>
        { acc with requests := acc.requests + 1, used := acc.used + 1 }
    | .resultOk n =>
        if n = 0 then { acc with requests := acc.requests + 1, used := acc.used + 1 }
        else
          fetchAux script fuel (page + 1)
            { items := acc.items + n, used := acc.used + 1,
              requests := acc.requests + 1, netFails := acc.netFails }

/-- `G2BClient.fetch_paginated_data` with its default `max_pages = 50`,
starting at page 1 with all counters at zero. -/
def fetch_paginated_data (script : Nat → PageOutcome) : FetchResult :=
  fetchAux script 50 1 { items := 0, used := 0, requests := 0, netFails := 0 }

/-- Outcome of one iteration of the page loop in
`G2BClientImproved.fetch_data` (`src/utils/g2b_client_improved.py` lines
206-245).  `_fetch_page` increments `self.daily_api_calls` only after the
HTTP status passes validation, and `api_calls_used += 1` runs only when
`_fetch_page` returns; `fetchRaiseFatal` / `fetchRaiseSoft` are exceptions
out of `_fetch_page` (after its internal retries), so they add no quota
unit, while `postFatal` / `postSoft` are exceptions raised after the
increment (`_check_api_error`, `ParseError`).  Fatal kinds
(`ValidationError`, `RateLimitError`, `APIResponseError`) propagate; soft
kinds `break` the loop. -/
inductive ImpPageOutcome where
  | ok (items : Nat)
  | fetchRaiseFatal
  | fetchRaiseSoft
  | postFatal
  | postSoft
deriving Repr, DecidableEq

/-- Result of `G2BClientImproved.fetch_data`: collected items, the
`api_calls_used` counter, the number of page-loop iterations begun, and
whether an exception propagated out of the method. -/
structure ImpFetchResult where
  items : Nat
  used : Nat
  pages : Nat
  fatal : Bool
deriving Repr, DecidableEq

/-- The `while page_no <= max_pages` loop of
`G2BClientImproved.fetch_data`, fuel-indexed like `fetchAux`: `page_no`
increases only after a page with at least one item; an empty page or any
exception leaves the loop. -/
def impFetchAux (script : Nat → ImpPageOutcome) : Nat → Nat → ImpFetchResult → ImpFetchResult
  | 0, _, acc => acc
  | fuel + 1, page, acc =>
    match script page with
    | .fetchRaiseFatal => { acc with pages := acc.pages + 1, fatal := true }
    | .fetchRaiseSoft => { acc with pages := acc.pages + 1 }
    | .postFatal =>
        { acc with pages := acc.pages + 1, used := acc.used + 1, fatal := true }
    | .postSoft =>
        { acc with pages := acc.pages + 1, used := acc.used + 1 }
    | .ok n =>
        if n = 0 then { acc with pages := acc.pages + 1, used := acc.used + 1 }
        else
          impFetchAux script fuel (page + 1)
            { items := acc.items + n, used := acc.used + 1,
              pages := acc.pages + 1, fatal := acc.fatal }

/-- `G2BClientImproved.fetch_data` with its default `max_pages = 500`. -/
def improved_fetch_data (script : Nat → ImpPageOutcome) : ImpFetchResult :=
  impFetchAux script 500 1 { items := 0, used := 0, pages := 0, fatal := false }

/-- `MAX_API_CALLS = 1000` from `src/collectors/g2b/collect_all.py`. -/
def MAX_API_CALLS : Nat := 1000

/-- `ZERO_INSERT_ALARM = 50` from `src/collectors/g2b/collect_all.py`
line 194: the consecutive-zero-insert threshold. -/
def ZERO_INSERT_ALARM : Nat := 50

/-- What one iteration of the main collection loop observes from
`client.fetch_data(job, year, month)` and `insert_contracts`
(`src/collectors/g2b/collect_all.py` lines 206-238).  `fetchOk pages
inserted` scripts a completed fetch — its `(count, used)` pair is produced
by the `fetch_paginated_data` model on `pages`, and `inserted` is what the
database reports for the parsed rows.  `rateLimitErr`, `apiErr` and
`unexpectedErr` script the three `except` arms.  (As committed, `G2BClient`
defines only `fetch_paginated_data`, so the attribute lookup
`client.fetch_data` itself raises and every iteration takes the
`unexpectedErr` arm; `fetchOk` models the composition with the paginated
fetcher that the surrounding code is written for.) -/
inductive PeriodEvent where
  | fetchOk (pages : Nat → PageOutcome) (inserted : Nat)
  | rateLimitErr
  | apiErr
  | unexpectedErr

/-- Why the `while` loop of `main` stopped: guard failure
(`daily_api_calls >= MAX_API_CALLS`), the `RateLimitError` break, the
consecutive-zero-insert break, or the end-of-range break. -/
inductive StopReason where
  | quota
  | rateLimited
  | anomaly
  | rangeDone
deriving Repr, DecidableEq

/-- The mutable state of one run of `main`: the checkpoint fields it
updates, the `total_new` and `consecutive_zero_inserts` locals, and ghost
tallies (HTTP requests issued, fetch calls begun, whether the distinct
cursor-anomaly Slack warning was sent). -/
structure LoopState where
  job : String
  year : Nat
  month : Nat
  calls : Nat
  totalCollected : Nat
  totalNew : Nat
  consecZero : Nat
  requests : Nat
  periods : Nat
  anomalyNotified : Bool
  stop : Option StopReason
deriving Repr, DecidableEq

/-- The end-of-range test of `main` (line 272):
`next_year > limit_year or (next_year == limit_year and next_month >
limit_month)`. -/
def rangeExceeded (limY limM y m : Nat) : Bool :=
  limY < y || (y = limY && limM < m)

/-- Lines 240-274 of `main`: advance the cursor with `get_next_period`,
then break with the cursor-anomaly warning when
`consecutive_zero_inserts >= ZERO_INSERT_ALARM`, then break when the new
period lies past the collection limit. -/
def advanceAndCheck (limY limM : Nat) (s : LoopState) : LoopState :=
  let next := get_next_period s.job s.year s.month
  let s1 := { s with job := next.1, year := next.2.1, month := next.2.2 }
  if ZERO_INSERT_ALARM ≤ s1.consecZero then
    { s1 with anomalyNotified := true, stop := some .anomaly }
  else if rangeExceeded limY limM s1.year s1.month then
    { s1 with stop := some .rangeDone }
  else s1

/-- One iteration of the `while` body of `main` (lines 196-274), given the
scripted event.  On `fetchOk`: `daily_api_calls += used`; when the fetch
returned items, `total_collected` and `total_new` grow by the inserted
count and `consecutive_zero_inserts` resets on a positive insert or
increments on a zero insert; when the fetch returned no items all three
are untouched.  `RateLimitError` breaks before the cursor advances; the
other two `except` arms record the error and fall through to the cursor
advance. -/
def loopStep (limY limM : Nat) (ev : PeriodEvent) (s : LoopState) : LoopState :=
  match ev with
  | .rateLimitErr => { s with periods := s.periods + 1, stop := some .rateLimited }
  | .apiErr => advanceAndCheck limY limM { s with periods := s.periods + 1 }
  | .unexpectedErr => advanceAndCheck limY limM { s with periods := s.periods + 1 }
  | .fetchOk pages inserted =>
    let f := fetch_paginated_data pages
    let s1 := { s with periods := s.periods + 1, calls := s.calls + f.used,
                       requests := s.requests + f.requests }
    let s2 :=
      if 0 < f.items then
        { s1 with totalCollected := s1.totalCollected + inserted,
                  totalNew := s1.totalNew + inserted,
                  consecZero := if 0 < inserted then 0 else s1.consecZero + 1 }
      else s1
    advanceAndCheck limY limM s2

/-- The `while progress["daily_api_calls"] < MAX_API_CALLS` loop of
`main`, iterated over scripted events; a set `stop` reason means a `break`
already happened.  The fuel bounds the number of iterations simulated (the
real loop is additionally bounded by the end-of-range break). -/
def runLoop (limY limM : Nat) (env : Nat → PeriodEvent) :
    Nat → Nat → LoopState → LoopState
  | 0, _, s => s
  | fuel + 1, i, s =>
    if s.stop.isSome then s
    else if MAX_API_CALLS ≤ s.calls then { s with stop := some .quota }
    else runLoop limY limM env fuel (i + 1) (loopStep limY limM (env i) s)

/-- The loop state at entry of the `while` loop, from a loaded checkpoint
(`total_new = 0` and `consecutive_zero_inserts = 0` are fresh locals). -/
def initState (p : Progress) : LoopState :=
  { job := p.current_job, year := p.current_year, month := p.current_month,
    calls := p.daily_api_calls, totalCollected := p.total_collected,
    totalNew := 0, consecZero := 0, requests := 0, periods := 0,
    anomalyNotified := false, stop := none }

/-- Environment of one run of `main` in
`src/collectors/g2b/collect_all.py`: whether `API_KEY` is set, whether
`create_table` and the Drive connection test succeed, what the
`progress.json` download yields (`none` = `safe_api_call` exhausted its
retries and returned the default `None`), whether an exception escapes the
`try` block after the checkpoint was loaded (for example a `KeyError` on a
malformed progress dict at the loop head, or a failure inside the final
notification), the scripted loop events, the collection limit (computed in
the source from the Seoul wall clock: the month before the current one),
and the simulation fuel. -/
structure MainEnv where
  apiKeyPresent : Bool
  dbOk : Bool
  driveOk : Bool
  download : Option Progress
  fatalMidRun : Bool
  events : Nat → PeriodEvent
  limitY : Nat
  limitM : Nat
  fuel : Nat

/-- Observable outcome of one run of `main`: the boolean it returns (the
process exits 0 exactly when it is `true`), whether a checkpoint was
loaded, how many period fetches were begun and HTTP requests issued, the
final loop state of the normal path, and which finalization actions were
attempted — the `progress_backup.json` write in the `finally` block, the
`upload_progress_json` call of step 8, and a Slack notification (the final
summary or an error message). -/
structure RunOutcome where
  ok : Bool
  loaded : Bool
  periodsFetched : Nat
  requests : Nat
  finalState : Option LoopState
  backupWritten : Bool
  remoteSaveAttempted : Bool
  notifyAttempted : Bool
  anomalyNotified : Bool
deriving Repr, DecidableEq

/-- `main` from `src/collectors/g2b/collect_all.py` lines 137-336.
Failure order follows the source: missing `API_KEY` raises
`ValidationError`; `create_table` failure and a failed Drive connection
test raise before the download; a failed download raises the generic
`Exception` of line 173.  All of these reach the `except` arms, which send
an error Slack message and return `False`; the `finally` block writes
`progress_backup.json` only when `progress` is non-`None`, i.e. only after
a successful download.  `upload_progress_json` (step 8) and the summary
notification (step 9) run only on the in-`try` path, which is taken when
no exception escapes; that path returns `True` even when per-period errors
were recorded.  Before the loop, step 5 resets the API counter
unconditionally via `main_reset_api_counter`. -/
def runMain (env : MainEnv) : RunOutcome :=
  if env.apiKeyPresent = false then
    { ok := false, loaded := false, periodsFetched := 0, requests := 0,
      finalState := none, backupWritten := false, remoteSaveAttempted := false,
      notifyAttempted := true, anomalyNotified := false }
  else if env.dbOk = false then
    { ok := false, loaded := false, periodsFetched := 0, requests := 0,
      finalState := none, backupWritten := false, remoteSaveAttempted := false,
      notifyAttempted := true, anomalyNotified := false }
  else if env.driveOk = false then
    { ok := false, loaded := false, periodsFetched := 0, requests := 0,
      finalState := none, backupWritten := false, remoteSaveAttempted := false,
      notifyAttempted := true, anomalyNotified := false }
  else
    match env.download with
    | none =>
        { ok := false, loaded := false, periodsFetched := 0, requests := 0,
          finalState := none, backupWritten := false,
          remoteSaveAttempted := false, notifyAttempted := true,
          anomalyNotified := false }
    | some p =>
        let p0 := main_reset_api_counter p
        if env.fatalMidRun then
          { ok := false, loaded := true, periodsFetched := 0, requests := 0,
            finalState := none, backupWritten := true,
            remoteSaveAttempted := false, notifyAttempted := true,
            anomalyNotified := false }
        else
          let s := runLoop env.limitY env.limitM env.events env.fuel 0
            (initState p0)
          { ok := true, loaded := true, periodsFetched := s.periods,
            requests := s.requests, finalState := some s,
            backupWritten := true, remoteSaveAttempted := true,
            notifyAttempted := true, anomalyNotified := s.anomalyNotified }

/-- `MAX_DAILY_CALLS = 500` from
`src/api-collector/collectors/g2b/collect_all.py`. -/
def MAX_DAILY_CALLS : Nat := 500

/-- Outcome of one `requests.get` attempt inside `get_month_data`
(`src/api-collector/collectors/g2b/collect_all.py` lines 141-165):
`raised` — the call threw, so `daily_api_calls += 1` never ran; `ok00 h` —
the response text contains `<resultCode>00</resultCode>`, with `h` saying
whether an `<item>` is present; `notOk` — any other response text. -/
inductive GmAttempt where
  | raised
  | ok00 (hasItems : Bool)
  | notOk
deriving Repr, DecidableEq

/-- Net effect of the `for attempt in range(max_retries)` block of
`get_month_data` on one page: the added `daily_api_calls`, the HTTP
requests issued, and whether the page text was appended (so the `while`
loop continues with `page + 1`; otherwise the function returns). -/
structure GmPageOut where
  dCalls : Nat
  dReqs : Nat
  gotPage : Bool
deriving Repr, DecidableEq

/-- The retry block of `get_month_data` with `max_retries = 3`: a raised
attempt retries unless it was the last (`attempt < max_retries - 1`); a
responded attempt counts one call, then an `ok00` result ends the page
(continuing exactly when it has items) while a non-`ok00` result retries
unless it was the last attempt. -/
def gmPageAux (att : Nat → GmAttempt) : Nat → Nat → Nat → Nat → GmPageOut
  | 0, _, c, r => { dCalls := c, dReqs := r, gotPage := false }
  | fuel + 1, a, c, r =>
    match att a with
    | .raised =>
        if a + 1 < 3 then gmPageAux att fuel (a + 1) c (r + 1)
        else { dCalls := c, dReqs := r + 1, gotPage := false }
    | .ok00 h => { dCalls := c + 1, dReqs := r + 1, gotPage := h }
    | .notOk =>
        if a + 1 < 3 then gmPageAux att fuel (a + 1) (c + 1) (r + 1)
        else { dCalls := c + 1, dReqs := r + 1, gotPage := false }

/-- One page of `get_month_data` (three attempts maximum). -/
def gmPage (att : Nat → GmAttempt) : GmPageOut :=
  gmPageAux att 3 0 0 0

/-- State threaded through the `while True` loop of `get_month_data`:
`progress["daily_api_calls"]`, the number of page texts appended to
`all_items`, issued HTTP requests, and whether the function returned
`None` because the daily cap was already reached. -/
structure GmState where
  calls : Nat
  pages : Nat
  requests : Nat
  quotaStopped : Bool
deriving Repr, DecidableEq

/-- The `while True` loop of `get_month_data` (lines 128-165): before each
page it returns `None` when `daily_api_calls >= MAX_DAILY_CALLS`;
otherwise it runs the retry block for the page and continues with the next
page exactly when the page was appended.  The script maps (page, attempt)
to an attempt outcome; the fuel is a simulation bound (each continuing
page adds at least one call, so 501 steps always suffice). -/
def get_month_data_aux (script : Nat → Nat → GmAttempt) :
    Nat → Nat → GmState → GmState
  | 0, _, s => s
  | fuel + 1, page, s =>
    if MAX_DAILY_CALLS ≤ s.calls then { s with quotaStopped := true }
    else
      let o := gmPage (script page)
      let s1 := { s with calls := s.calls + o.dCalls,
                         requests := s.requests + o.dReqs,
                         pages := s.pages + (if o.gotPage then 1 else 0) }
      if o.gotPage then get_month_data_aux script fuel (page + 1) s1 else s1

/-- `get_month_data` from `src/api-collector/collectors/g2b/collect_all.py`
lines 110-167, entered with the current `progress["daily_api_calls"]`. -/
def get_month_data (script : Nat → Nat → GmAttempt) (entryCalls fuel : Nat) :
    GmState :=
  get_month_data_aux script fuel 1
    { calls := entryCalls, pages := 0, requests := 0, quotaStopped := false }

/-- One row of the `contracts` table (`CREATE_TABLE_SQL` in
`src/utils/db.py` lines 6-28).  `unty_cntrct_no` is the natural primary
key; the remaining nullable columns default to `none` / `0` here so that
concrete rows can be written tersely. -/
structure ContractRow where
  unty_cntrct_no : String
  bsns_div_nm : Option String := none
  cntrct_nm : Option String := none
  cntrct_cncls_date : Option String := none
  cntrct_prd : Option String := none
  tot_cntrct_amt : Option Int := none
  thtm_cntrct_amt : Option Int := none
  cntrct_instt_cd : Option String := none
  cntrct_instt_nm : Option String := none
  cntrct_instt_jrsdctn_div_nm : Option String := none
  cntrct_cncls_mthd_nm : Option String := none
  pay_div_nm : Option String := none
  ntce_no : Option String := none
  corp_list : Option String := none
  lngtrm_ctnu_div_nm : Option String := none
  cmmn_cntrct_yn : Option String := none
  rgst_dt : Option String := none
  collected_year : Nat := 0
  collected_month : Nat := 0
deriving Repr, DecidableEq

/-- Whether the table already holds a row with this primary key. -/
def hasKey (t : List ContractRow) (k : String) : Bool :=
  t.any (fun r => r.unty_cntrct_no == k)

/-- One `INSERT ... ON CONFLICT (unty_cntrct_no) DO NOTHING` statement
over a batch of value rows, PostgreSQL semantics: rows are processed in
order; a row whose key already exists in the table (including a key
inserted earlier in the same statement) is skipped; the statement reports
the number of rows it actually inserted (`cur.rowcount`). -/
def insertBatch (t : List ContractRow) (chunk : List ContractRow) :
    List ContractRow × Nat :=
  chunk.foldl
    (fun acc r =>
      if hasKey acc.1 r.unty_cntrct_no then acc else (acc.1 ++ [r], acc.2 + 1))
    (t, 0)

/-- `execute_values` paging: split the value list into pages of at most
`n` rows, one `INSERT` statement per page (psycopg2 executes a separate
statement for every page when the list exceeds `page_size`). -/
def chunksOfAux (n : Nat) : Nat → List ContractRow → List (List ContractRow)
  | 0, _ => []
  | _, [] => []
  | fuel + 1, l => l.take n :: chunksOfAux n fuel (l.drop n)

/-- The pages of a value list under `page_size = n`. -/
def chunksOf (n : Nat) (l : List ContractRow) : List (List ContractRow) :=
  chunksOfAux n l.length l

/-- `insert_contracts` from `src/utils/db.py` lines 109-129: empty input
returns 0; otherwise the rows are inserted through
`execute_values(cur, sql, values, page_size=500)`, one conflict-ignoring
`INSERT` statement per page of 500, and the returned count is
`cur.rowcount` — the row count of the LAST statement executed (psycopg2
leaves `rowcount` at the last page when it pages internally; the
`rowcount >= 0` guard in the source is always satisfied here).  The result
is the table after all statements together with that returned count. -/
def insert_contracts (t : List ContractRow) (rows : List ContractRow) :
    List ContractRow × Nat :=
  if rows.isEmpty then (t, 0)
  else
    (chunksOf 500 rows).foldl
      (fun acc chunk =>
        let r := insertBatch acc.1 chunk
        (r.1, r.2))
      (t, 0)

/-- No scripted fetch loses a request to a network-level failure: every
HTTP request of every `fetchOk` event receives a response, so it is
counted by `api_calls_used`. -/
def NoNetFailures (env : Nat → PeriodEvent) : Prop :=
  ∀ i pages inserted, env i = .fetchOk pages inserted →
    (fetch_paginated_data pages).netFails = 0

/-- Upper bound on the HTTP requests a run of the main loop can still
issue when the counter currently reads `calls`: the loop re-checks the
quota only between periods, and one period can issue up to 50 page
requests with no quota check inside. -/
def quotaHeadroom (calls : Nat) : Nat :=
  if MAX_API_CALLS ≤ calls then 0 else (MAX_API_CALLS - calls - 1) + 50

/-- Provider script for the 150-item scenario: page 1 returns a full page
of 100 items, page 2 returns 50 items, page 3 is empty. -/
def c4Script : Nat → PageOutcome := fun p =>
  if p = 1 then .resultOk 100 else if p = 2 then .resultOk 50 else .resultOk 0

/-- Checkpoint for the 150-item scenario: goods, 2014-01, zero counters. -/
def c4Checkpoint : Progress :=
  { current_job := "물품", current_year := 2014, current_month := 1,
    daily_api_calls := 0, total_collected := 0, last_run_date := "" }

/-- Provider script where the very first page request times out. -/
def c5Script : Nat → PageOutcome := fun _ => .netFail

/-- Provider script for `get_month_data` where every attempt of every
page responds with a non-`00` result code. -/
def c3GmScript : Nat → Nat → GmAttempt := fun _ _ => .notOk

/-- Event script where every period fetch follows `c4Script` and inserts
150 fresh rows. -/
def c3WitnessEnv : Nat → PeriodEvent := fun _ => .fetchOk c4Script 150

/-- A checkpoint whose stored date will equal the run date and whose
daily counter is 5. -/
def c2Progress : Progress :=
  { current_job := "물품", current_year := 2016, current_month := 2,
    daily_api_calls := 5, total_collected := 0, last_run_date := "2025-06-01" }

/-- A run environment that loads `c2Progress` successfully and performs
no loop iteration (fuel 0), isolating the start-of-run counter reset. -/
def c2Env : MainEnv :=
  { apiKeyPresent := true, dbOk := true, driveOk := true,
    download := some c2Progress, fatalMidRun := false,
    events := fun _ => .unexpectedErr, limitY := 2025, limitM := 9, fuel := 0 }

/-- A run environment where remote storage is reachable but the
checkpoint download fails (`safe_api_call` returns `None`). -/
def c7Env : MainEnv :=
  { apiKeyPresent := true, dbOk := true, driveOk := true,
    download := none, fatalMidRun := false,
    events := fun _ => .unexpectedErr, limitY := 2025, limitM := 9, fuel := 5 }

/-- A run environment where the checkpoint loads but a fatal exception
escapes the `try` block afterwards. -/
def c8FatalEnv : MainEnv :=
  { apiKeyPresent := true, dbOk := true, driveOk := true,
    download := some c2Progress, fatalMidRun := true,
    events := fun _ => .unexpectedErr, limitY := 2025, limitM := 9, fuel := 5 }

/-- Provider script whose fetch yields 5 items on page 1 and nothing on
page 2: data came back, so a zero insert counts toward the streak. -/
def c9Pages : Nat → PageOutcome := fun p =>
  if p = 1 then .resultOk 5 else .resultOk 0

/-- Loop state whose consecutive-zero-insert streak stands at 49, one
short of `ZERO_INSERT_ALARM`. -/
def c9State : LoopState :=
  { job := "물품", year := 2014, month := 1, calls := 0, totalCollected := 0,
    totalNew := 0, consecZero := 49, requests := 0, periods := 0,
    anomalyNotified := false, stop := none }

/-- The i-th distinct primary key of the 501-row batch (distinctness is
witnessed by the string length). -/
def c6Key (i : Nat) : String := String.mk (List.replicate i 'a')

/-- 501 contract rows with pairwise distinct natural keys, none of which
is present in an empty table. -/
def c6Rows : List ContractRow :=
  (List.range 501).map (fun i => { unty_cntrct_no := c6Key i })

/-- The page loop issues at most `fuel` further requests. -/
theorem fetchAux_requests_le (script : Nat → PageOutcome) :
    ∀ (fuel page : Nat) (acc : FetchResult),
      (fetchAux script fuel page acc).requests ≤ acc.requests + fuel := by
  intro fuel
  induction fuel with
  | zero => intro page acc; simp [fetchAux]
  | succ n ih =>
    intro page acc
    simp only [fetchAux]
    cases h : script page with
    | netFail => simp
    | httpError s => simp
    | parseFail => simp
    | resultNoData => simp
    | resultErr c => simp
    | resultOk k =>
      by_cases hk : k = 0
      · simp [hk]
      · simp only [hk, if_false]
        calc (fetchAux script n (page + 1)
                { items := acc.items + k, used := acc.used + 1,
                  requests := acc.requests + 1, netFails := acc.netFails }).requests
            ≤ acc.requests + 1 + n := ih (page + 1) _
          _ ≤ acc.requests + (n + 1) := by omega

/-- Counted quota units plus network failures account for every request
issued by the page loop. -/
theorem fetchAux_used_add_netFails (script : Nat → PageOutcome) :
    ∀ (fuel page : Nat) (acc : FetchResult),
      acc.used + acc.netFails = acc.requests →
      (fetchAux script fuel page acc).used + (fetchAux script fuel page acc).netFails
        = (fetchAux script fuel page acc).requests := by
  intro fuel
  induction fuel with
  | zero => intro page acc h; simpa [fetchAux] using h
  | succ n ih =>
    intro page acc h
    simp only [fetchAux]
    cases hs : script page with
    | netFail => simp; omega
    | httpError s => simp; omega
    | parseFail => simp; omega
    | resultNoData => simp; omega
    | resultErr c => simp; omega
    | resultOk k =>
      by_cases hk : k = 0
      · simp [hk]; omega
      · simp only [hk, if_false]
        exact ih (page + 1) _ (by simp; omega)

/-- The request tally never decreases along the page loop. -/
theorem fetchAux_requests_mono (script : Nat → PageOutcome) :
    ∀ (fuel page : Nat) (acc : FetchResult),
      acc.requests ≤ (fetchAux script fuel page acc).requests := by
  intro fuel
  induction fuel with
  | zero => intro page acc; simp [fetchAux]
  | succ n ih =>
    intro page acc
    simp only [fetchAux]
    cases hs : script page with
    | netFail => simp
    | httpError s => simp
    | parseFail => simp
    | resultNoData => simp
    | resultErr c => simp
    | resultOk k =>
      by_cases hk : k = 0
      · simp [hk]
      · simp only [hk, if_false]
        exact le_trans (by simp) (ih (page + 1) _)

/-- A fetch with at least one page of budget always issues a request. -/
theorem fetchAux_requests_pos (script : Nat → PageOutcome) :
    ∀ (fuel page : Nat) (acc : FetchResult),
      acc.requests + 1 ≤ (fetchAux script (fuel + 1) page acc).requests := by
  intro fuel page acc
  simp only [fetchAux]
  cases hs : script page with
  | netFail => simp
  | httpError s => simp
  | parseFail => simp
  | resultNoData => simp
  | resultErr c => simp
  | resultOk k =>
    by_cases hk : k = 0
    · simp [hk]
    · simp only [hk, if_false]
      exact le_trans (by simp) (fetchAux_requests_mono script fuel (page + 1) _)

/-- Counted quota units never exceed issued requests. -/
theorem fetchAux_used_le_requests (script : Nat → PageOutcome) :
    ∀ (fuel page : Nat) (acc : FetchResult),
      acc.used ≤ acc.requests →
      (fetchAux script fuel page acc).used ≤ (fetchAux script fuel page acc).requests := by
  intro fuel
  induction fuel with
  | zero => intro page acc h; simpa [fetchAux] using h
  | succ n ih =>
    intro page acc h
    simp only [fetchAux]
    cases hs : script page with
    | netFail => simp; omega
    | httpError s => simp; omega
    | parseFail => simp; omega
    | resultNoData => simp; omega
    | resultErr c => simp; omega
    | resultOk k =>
      by_cases hk : k = 0
      · simp [hk]; omega
      · simp only [hk, if_false]
        exact ih (page + 1) _ (by simp; omega)

/-- The improved page loop begins at most `fuel` further pages. -/
theorem impFetchAux_pages_le (script : Nat → ImpPageOutcome) :
    ∀ (fuel page : Nat) (acc : ImpFetchResult),
      (impFetchAux script fuel page acc).pages ≤ acc.pages + fuel := by
  intro fuel
  induction fuel with
  | zero => intro page acc; simp [impFetchAux]
  | succ n ih =>
    intro page acc
    simp only [impFetchAux]
    cases hs : script page with
    | fetchRaiseFatal => simp
    | fetchRaiseSoft => simp
    | postFatal => simp
    | postSoft => simp
    | ok k =>
      by_cases hk : k = 0
      · simp [hk]
      · simp only [hk, if_false]
        calc (impFetchAux script n (page + 1)
                { items := acc.items + k, used := acc.used + 1,
                  pages := acc.pages + 1, fatal := acc.fatal }).pages
            ≤ acc.pages + 1 + n := ih (page + 1) _
          _ ≤ acc.pages + (n + 1) := by omega

/-- In the improved client, quota units never exceed begun pages. -/
theorem impFetchAux_used_le_pages (script : Nat → ImpPageOutcome) :
    ∀ (fuel page : Nat) (acc : ImpFetchResult),
      acc.used ≤ acc.pages →
      (impFetchAux script fuel page acc).used ≤ (impFetchAux script fuel page acc).pages := by
  intro fuel
  induction fuel with
  | zero => intro page acc h; simpa [impFetchAux] using h
  | succ n ih =>
    intro page acc h
    simp only [impFetchAux]
    cases hs : script page with
    | fetchRaiseFatal => simp; omega
    | fetchRaiseSoft => simp; omega
    | postFatal => simp; omega
    | postSoft => simp; omega
    | ok k =>
      by_cases hk : k = 0
      · simp [hk]; omega
      · simp only [hk, if_false]
        exact ih (page + 1) _ (by simp; omega)
/-- C10: for every provider behavior, `G2BClient.fetch_paginated_data`
issues at most its `max_pages = 50` page requests and reports at most
that many quota units, and `G2BClientImproved.fetch_data` begins at most
its `max_pages = 500` page iterations and counts at most one quota unit
per begun page; both loops terminate because each iteration either
strictly increments the page number or leaves the loop. -/
theorem c10_bounded_pagination (s1 : Nat → PageOutcome) (s2 : Nat → ImpPageOutcome) :
    (fetch_paginated_data s1).requests ≤ 50
    ∧ (fetch_paginated_data s1).used ≤ 50
    ∧ (improved_fetch_data s2).pages ≤ 500
    ∧ (improved_fetch_data s2).used ≤ 500 := by
  refine ⟨?_, ?_, ?_, ?_⟩
  · simpa using fetchAux_requests_le s1 50 1 _
  · exact le_trans (fetchAux_used_le_requests s1 50 1 _ (by simp))
      (by simpa using fetchAux_requests_le s1 50 1 _)
  · simpa using impFetchAux_pages_le s2 500 1 _
  · exact le_trans (impFetchAux_used_le_pages s2 500 1 _ (by simp))
      (by simpa using impFetchAux_pages_le s2 500 1 _)

/-- C5 counterexample: the first page request times out; an HTTP request
was issued (`requests = 1`) but the returned `api_calls_used` is 0, so
not every issued request consumed a quota unit. -/
theorem c5_quota_unit_counterexample :
    (fetch_paginated_data c5Script).requests = 1
    ∧ (fetch_paginated_data c5Script).used = 0
    ∧ (fetch_paginated_data c5Script).used ≠ (fetch_paginated_data c5Script).requests := by
  decide

/-- C5 amended: in `G2BClient.fetch_paginated_data` a request consumes
exactly one quota unit when (and only when) it yields an HTTP response —
whatever the status or result code — while a request that fails at the
network level (timeout, connection error) consumes none, so the returned
units equal issued requests minus network failures; in
`G2BClientImproved.fetch_data` the returned `api_calls_used` counts
completed page fetches, never individual retry attempts. -/
theorem c5_quota_unit_amended (s1 : Nat → PageOutcome) (s2 : Nat → ImpPageOutcome) :
    (fetch_paginated_data s1).used + (fetch_paginated_data s1).netFails
      = (fetch_paginated_data s1).requests
    ∧ (improved_fetch_data s2).used ≤ (improved_fetch_data s2).pages := by
  exact ⟨fetchAux_used_add_netFails s1 50 1 _ (by simp),
    impFetchAux_used_le_pages s2 500 1 _ (by simp)⟩

/-- C4 counterexample: with 150 items served as a full page of 100 and a
partial page of 50, the fetch issues 3 page requests (the partial page
does not stop pagination; the empty third page does), not the 2 the claim
requires. -/
theorem c4_pagination_counterexample :
    (fetch_paginated_data c4Script).items = 150
    ∧ (fetch_paginated_data c4Script).used = 3
    ∧ (fetch_paginated_data c4Script).used ≠ 2 := by
  decide

/-- C4 amended: after any page with at least one item — full or partial —
the next page is requested; pagination stops exactly when a page returns
zero items (or an error).  Hence the 150-item scenario issues 3 page
requests: 150 records are collected and persisted, the cursor advances
from goods 2014-01 to goods 2014-02, and `daily_api_calls` grows by 3. -/
theorem c4_pagination_amended :
    (∀ (script : Nat → PageOutcome) (fuel page : Nat) (acc : FetchResult) (n : Nat),
        script page = .resultOk n → 0 < n →
        fetchAux script (fuel + 1) page acc
          = fetchAux script fuel (page + 1)
              { items := acc.items + n, used := acc.used + 1,
                requests := acc.requests + 1, netFails := acc.netFails })
    ∧ (∀ (script : Nat → PageOutcome) (fuel page : Nat) (acc : FetchResult),
        script page = .resultOk 0 →
        fetchAux script (fuel + 1) page acc
          = { acc with requests := acc.requests + 1, used := acc.used + 1 })
    ∧ fetch_paginated_data c4Script
        = { items := 150, used := 3, requests := 3, netFails := 0 }
    ∧ loopStep 2025 9 (.fetchOk c4Script 150) (initState c4Checkpoint)
        = { job := "물품", year := 2014, month := 2, calls := 3,
            totalCollected := 150, totalNew := 150, consecZero := 0,
            requests := 3, periods := 1, anomalyNotified := false,
            stop := none } := by
  refine ⟨?_, ?_, by decide, by decide⟩
  · intro script fuel page acc n hs hn
    simp only [fetchAux, hs]
    simp [Nat.pos_iff_ne_zero.mp hn]
  · intro script fuel page acc hs
    simp [fetchAux, hs]

/-- Witness for the C4 amended theorem: page 1 of the scenario script is
a full page of 100 items, and the loop goes on to request page 2. -/
theorem c4_pagination_amended_witness :
    fetchAux c4Script 3 1 { items := 0, used := 0, requests := 0, netFails := 0 }
      = fetchAux c4Script 2 2
          { items := 100, used := 1, requests := 1, netFails := 0 } := by
  have h := c4_pagination_amended.1 c4Script 2 1
    { items := 0, used := 0, requests := 0, netFails := 0 } 100 (by decide) (by decide)
  simpa using h

/-- Per-page retry accounting for `get_month_data`: at most one request
per remaining attempt, the call counter never shrinks, and a page that
continues the loop counted at least one call. -/
theorem gmPageAux_spec (att : Nat → GmAttempt) :
    ∀ (fuel a c r : Nat),
      (gmPageAux att fuel a c r).dReqs ≤ r + fuel
      ∧ c ≤ (gmPageAux att fuel a c r).dCalls
      ∧ ((gmPageAux att fuel a c r).gotPage = true →
          c + 1 ≤ (gmPageAux att fuel a c r).dCalls) := by
  intro fuel
  induction fuel with
  | zero => intro a c r; simp [gmPageAux]
  | succ n ih =>
    intro a c r
    simp only [gmPageAux]
    cases h : att a with
    | raised =>
      by_cases ha : a + 1 < 3
      · simp only [ha, if_true]
        obtain ⟨h1, h2, h3⟩ := ih (a + 1) c (r + 1)
        exact ⟨by omega, h2, h3⟩
      · simp [ha]
    | ok00 hi => simp
    | notOk =>
      by_cases ha : a + 1 < 3
      · simp only [ha, if_true]
        obtain ⟨h1, h2, h3⟩ := ih (a + 1) (c + 1) (r + 1)
        refine ⟨by omega, by omega, fun hg => by omega⟩
      · simp [ha]

/-- The `while True` loop of `get_month_data` issues at most three
requests per unit of quota headroom at entry: the quota is re-checked
only between pages, and each page that continues the loop counted at
least one call. -/
theorem get_month_data_aux_requests (script : Nat → Nat → GmAttempt) :
    ∀ (fuel page : Nat) (s : GmState),
      (get_month_data_aux script fuel page s).requests
        ≤ s.requests + 3 * (MAX_DAILY_CALLS - s.calls) := by
  intro fuel
  induction fuel with
  | zero => intro page s; simp [get_month_data_aux]
  | succ n ih =>
    intro page s
    simp only [get_month_data_aux]
    by_cases hq : MAX_DAILY_CALLS ≤ s.calls
    · simp [hq]
    · simp only [hq, if_false]
      obtain ⟨h1, h2, h3⟩ := gmPageAux_spec (script page) 3 0 0 0
      have hhead : 1 ≤ MAX_DAILY_CALLS - s.calls := by
        simp only [MAX_DAILY_CALLS] at hq ⊢; omega
      cases hgp : (gmPage (script page)).gotPage with
      | false =>
        simp only [gmPage] at hgp h1 h2 h3
        simp only [gmPage, hgp, if_false, Bool.false_eq_true]
        simp only [MAX_DAILY_CALLS] at hhead ⊢
        simp
        omega
      | true =>
        simp only [gmPage] at hgp h1 h2 h3
        have hc := h3 hgp
        simp only [gmPage, hgp, if_true]
        have hrec := ih (page + 1)
          { calls := s.calls + (gmPageAux (script page) 3 0 0 0).dCalls,
            pages := s.pages + (if true then 1 else 0),
            requests := s.requests + (gmPageAux (script page) 3 0 0 0).dReqs,
            quotaStopped := s.quotaStopped }
        simp only [MAX_DAILY_CALLS] at hrec hhead ⊢
        simp at hrec ⊢
        omega

/-- Advancing the cursor and running the anomaly / range checks never
touches the API-call counter. -/
theorem advanceAndCheck_calls (limY limM : Nat) (s : LoopState) :
    (advanceAndCheck limY limM s).calls = s.calls := by
  simp only [advanceAndCheck]
  split_ifs <;> rfl

/-- Advancing the cursor never touches the request tally. -/
theorem advanceAndCheck_requests (limY limM : Nat) (s : LoopState) :
    (advanceAndCheck limY limM s).requests = s.requests := by
  simp only [advanceAndCheck]
  split_ifs <;> rfl

/-- Advancing the cursor never touches the zero-insert streak. -/
theorem advanceAndCheck_consecZero (limY limM : Nat) (s : LoopState) :
    (advanceAndCheck limY limM s).consecZero = s.consecZero := by
  simp only [advanceAndCheck]
  split_ifs <;> rfl

/-- A loop state that already carries a stop reason is final: the loop
performs no further iteration on it. -/
theorem runLoop_stopped (limY limM : Nat) (env : Nat → PeriodEvent) :
    ∀ (fuel i : Nat) (s : LoopState),
      s.stop.isSome → runLoop limY limM env fuel i s = s := by
  intro fuel i s h
  cases fuel with
  | zero => rfl
  | succ n => simp [runLoop, h]

/-- A period iteration adds exactly the fetch's issued requests. -/
theorem loopStep_fetchOk_requests (limY limM : Nat) (pages : Nat → PageOutcome)
    (ins : Nat) (s : LoopState) :
    (loopStep limY limM (.fetchOk pages ins) s).requests
      = s.requests + (fetch_paginated_data pages).requests := by
  simp only [loopStep]
  rw [advanceAndCheck_requests]
  split_ifs <;> rfl

/-- A period iteration adds exactly the fetch's counted quota units. -/
theorem loopStep_fetchOk_calls (limY limM : Nat) (pages : Nat → PageOutcome)
    (ins : Nat) (s : LoopState) :
    (loopStep limY limM (.fetchOk pages ins) s).calls
      = s.calls + (fetch_paginated_data pages).used := by
  simp only [loopStep]
  rw [advanceAndCheck_calls]
  split_ifs <;> rfl

/-- Request ceiling for the main loop: when every issued request is
answered (so the counter tracks requests), a run issues at most
`quotaHeadroom` further requests — a new period begins only while the
counter is below `MAX_API_CALLS`, and the period in flight can add up to
50 page requests with no quota check inside. -/
theorem runLoop_requests_bound (limY limM : Nat) (env : Nat → PeriodEvent)
    (henv : NoNetFailures env) :
    ∀ (fuel i : Nat) (s : LoopState),
      (runLoop limY limM env fuel i s).requests ≤ s.requests + quotaHeadroom s.calls := by
  intro fuel
  induction fuel with
  | zero => intro i s; simp [runLoop]
  | succ n ih =>
    intro i s
    simp only [runLoop]
    by_cases hstop : s.stop.isSome
    · simp [hstop]
    · simp only [hstop, if_false]
      by_cases hq : MAX_API_CALLS ≤ s.calls
      · simp [hq]
      · simp only [hq, if_false]
        cases hev : env i with
        | rateLimitErr =>
          have h := ih (i + 1) (loopStep limY limM .rateLimitErr s)
          simp only [loopStep] at h
          exact h
        | apiErr =>
          have h := ih (i + 1) (loopStep limY limM .apiErr s)
          simp only [loopStep, advanceAndCheck_requests, advanceAndCheck_calls] at h
          simpa only [loopStep, advanceAndCheck_requests, advanceAndCheck_calls] using h
        | unexpectedErr =>
          have h := ih (i + 1) (loopStep limY limM .unexpectedErr s)
          simp only [loopStep, advanceAndCheck_requests, advanceAndCheck_calls] at h
          simpa only [loopStep, advanceAndCheck_requests, advanceAndCheck_calls] using h
        | fetchOk pages ins =>
          have h := ih (i + 1) (loopStep limY limM (.fetchOk pages ins) s)
          rw [loopStep_fetchOk_requests, loopStep_fetchOk_calls] at h
          have hnf : (fetch_paginated_data pages).netFails = 0 := henv i pages ins hev
          have huse : (fetch_paginated_data pages).used
              + (fetch_paginated_data pages).netFails
              = (fetch_paginated_data pages).requests :=
            fetchAux_used_add_netFails pages 50 1 _ (by simp)
          have hle : (fetch_paginated_data pages).requests ≤ 50 := by
            simpa using fetchAux_requests_le pages 50 1 _
          have hpos : 1 ≤ (fetch_paginated_data pages).requests := by
            simpa using fetchAux_requests_pos pages 49 1
              { items := 0, used := 0, requests := 0, netFails := 0 }
          simp only [quotaHeadroom, MAX_API_CALLS] at h ⊢
          simp only [MAX_API_CALLS] at hq
          split_ifs at h ⊢ <;> omega

/-- C3 counterexample: `get_month_data` enters with 499 of 500 daily
calls used — the claimed ceiling allows 1 request — yet the three retry
attempts of page 1 (all answered with a non-`00` code) issue 3 HTTP
requests, the last two after the counter has already reached the
maximum. -/
theorem c3_quota_counterexample :
    (get_month_data c3GmScript 499 10).requests = 3
    ∧ ¬((get_month_data c3GmScript 499 10).requests ≤ MAX_DAILY_CALLS - 499) := by
  decide

/-- C3 amended: the quota is enforced only between pages (api-collector
variant) or between periods (main loop), not between the requests inside
one: `get_month_data` issues at most `3 * (MAX_DAILY_CALLS -
daily_calls_at_entry)` requests (up to two extra retry attempts of the
page in flight after the cap), and the main loop — when every issued
request is answered and hence counted — issues at most
`(MAX_API_CALLS - calls_at_start - 1) + 50` requests, the `+ 50` coming
from the period during which the counter crosses the cap. -/
theorem c3_quota_amended :
    (∀ (script : Nat → Nat → GmAttempt) (entryCalls fuel : Nat),
        (get_month_data script entryCalls fuel).requests
          ≤ 3 * (MAX_DAILY_CALLS - entryCalls))
    ∧ (∀ (limY limM : Nat) (env : Nat → PeriodEvent) (fuel i : Nat) (s : LoopState),
        NoNetFailures env →
        (runLoop limY limM env fuel i s).requests
          ≤ s.requests + quotaHeadroom s.calls) := by
  constructor
  · intro script e fuel
    simpa [get_month_data] using
      get_month_data_aux_requests script fuel 1
        { calls := e, pages := 0, requests := 0, quotaStopped := false }
  · intro limY limM env fuel i s henv
    exact runLoop_requests_bound limY limM env henv fuel i s

/-- Witness for the C3 amended theorem, at the all-`c4Script` event
environment (which loses no request to network failures). -/
theorem c3_quota_amended_witness :
    (runLoop 2025 9 c3WitnessEnv 3 0 (initState c4Checkpoint)).requests
      ≤ (initState c4Checkpoint).requests + quotaHeadroom (initState c4Checkpoint).calls := by
  refine c3_quota_amended.2 2025 9 c3WitnessEnv 3 0 (initState c4Checkpoint) ?_
  intro i pages inserted h
  simp only [c3WitnessEnv] at h
  injection h with ha hb
  subst ha
  decide

/-- When the zero-insert streak has reached the alarm threshold, the
post-period checks set the anomaly stop reason and send the distinct
cursor-anomaly warning. -/
theorem advanceAndCheck_anomaly (limY limM : Nat) (x : LoopState)
    (h : ZERO_INSERT_ALARM ≤ x.consecZero) :
    (advanceAndCheck limY limM x).stop = some .anomaly
    ∧ (advanceAndCheck limY limM x).anomalyNotified = true := by
  simp only [advanceAndCheck]
  split_ifs
  exact ⟨rfl, rfl⟩

/-- C1: the Period Walker successor.  For every category of the fixed
enumeration and every month between 1 and 12: a month below 12 keeps the
category and year and adds one month; December of a non-last category
moves to the next category of `jobs` with month 1 and the same year;
December of the last category (`"외자"`) wraps to the first category
(`"물품"`) with `year + 1` and month 1.  `get_next_period` is a pure
function of its three arguments by construction. -/
theorem c1_period_walker_next (job : String) (year month : Nat)
    (hjob : job ∈ jobs) (h1 : 1 ≤ month) (h2 : month ≤ 12) :
    (month < 12 → get_next_period job year month = (job, year, month + 1))
    ∧ (month = 12 → job ≠ "외자" →
        get_next_period job year month
          = (jobs.getD (jobs.indexOf job + 1) "물품", year, 1))
    ∧ (month = 12 → job = "외자" →
        get_next_period job year month = ("물품", year + 1, 1)) := by
  refine ⟨fun h => by simp [get_next_period, h], ?_, ?_⟩
  · intro h12 hne
    subst h12
    simp only [jobs, List.mem_cons, List.not_mem_nil, or_false] at hjob
    rcases hjob with h | h | h | h <;> subst h
    · rfl
    · rfl
    · rfl
    · exact absurd rfl hne
  · intro h12 hj
    subst h12
    subst hj
    rfl

/-- Witness for C1: December of the last category wraps to the first
category of the next year. -/
theorem c1_period_walker_next_witness :
    get_next_period "외자" 2020 12 = ("물품", 2021, 1) :=
  (c1_period_walker_next "외자" 2020 12 (by decide) (by decide) (by decide)).2.2 rfl rfl

/-- C2 counterexample: a checkpoint whose stored date equals the current
run date and whose counter reads 5 is nonetheless reset — step 5 of
`main` zeroes `daily_api_calls` unconditionally, so after loading, the
run carries 0 instead of the stored 5. -/
theorem c2_reset_counterexample :
    c2Progress.last_run_date = "2025-06-01"
    ∧ c2Progress.daily_api_calls = 5
    ∧ (main_reset_api_counter c2Progress).daily_api_calls = 0
    ∧ ((runMain c2Env).finalState.map (fun s => s.calls)) = some 0 := by
  decide

/-- C2 amended: the main collector resets `daily_api_calls` to 0
unconditionally at the start of every run, whatever the stored date; the
date-conditional behavior the claim describes holds only of the
api-collector variant's `load_progress`, which carries the counter
forward when `last_run_date` equals today and resets it exactly when the
dates differ; and within the loop itself the counter is never reset (no
iteration decreases it). -/
theorem c2_reset_amended :
    (∀ p : Progress, (main_reset_api_counter p).daily_api_calls = 0)
    ∧ (∀ (p : Progress) (today : String),
        p.last_run_date = today → load_progress (some p) today = p)
    ∧ (∀ (p : Progress) (today : String),
        p.last_run_date ≠ today →
          (load_progress (some p) today).daily_api_calls = 0
          ∧ (load_progress (some p) today).last_run_date = today)
    ∧ (∀ (limY limM : Nat) (ev : PeriodEvent) (s : LoopState),
        s.calls ≤ (loopStep limY limM ev s).calls) := by
  refine ⟨fun p => rfl, ?_, ?_, ?_⟩
  · intro p today h
    simp [load_progress, h]
  · intro p today h
    simp [load_progress, h]
  · intro limY limM ev s
    cases ev with
    | rateLimitErr => simp [loopStep]
    | apiErr => simp [loopStep, advanceAndCheck_calls]
    | unexpectedErr => simp [loopStep, advanceAndCheck_calls]
    | fetchOk pages ins => rw [loopStep_fetchOk_calls]; omega

/-- Witness for the C2 amended theorem: with equal dates, the
api-collector loader carries the stored record forward unchanged. -/
theorem c2_reset_amended_witness :
    load_progress (some c2Progress) "2025-06-01" = c2Progress :=
  c2_reset_amended.2.1 c2Progress "2025-06-01" rfl

/-- C9: the consecutive-zero-insert detector.  A period whose fetch
returned items resets the streak on a positive insert count and
increments it on a zero insert count; a period that returned no items
leaves the streak unchanged; whenever the streak reaches
`ZERO_INSERT_ALARM` the iteration records the distinct cursor-anomaly
stop reason with its operator notification; and a stopped state performs
no further iteration — the run halts instead of walking to the range
end. -/
theorem c9_anomaly_halt (limY limM : Nat) (s : LoopState)
    (pages : Nat → PageOutcome) (inserted : Nat) :
    (0 < (fetch_paginated_data pages).items → 0 < inserted →
        (loopStep limY limM (.fetchOk pages inserted) s).consecZero = 0)
    ∧ (0 < (fetch_paginated_data pages).items → inserted = 0 →
        (loopStep limY limM (.fetchOk pages inserted) s).consecZero = s.consecZero + 1)
    ∧ ((fetch_paginated_data pages).items = 0 →
        (loopStep limY limM (.fetchOk pages inserted) s).consecZero = s.consecZero)
    ∧ (ZERO_INSERT_ALARM ≤ (loopStep limY limM (.fetchOk pages inserted) s).consecZero →
        (loopStep limY limM (.fetchOk pages inserted) s).stop = some .anomaly
        ∧ (loopStep limY limM (.fetchOk pages inserted) s).anomalyNotified = true)
    ∧ (∀ (env : Nat → PeriodEvent) (fuel i : Nat) (t : LoopState),
        t.stop = some .anomaly → runLoop limY limM env fuel i t = t) := by
  refine ⟨?_, ?_, ?_, ?_, ?_⟩
  · intro hi hins
    simp only [loopStep, advanceAndCheck_consecZero]
    rw [if_pos hi]
    simp [Nat.pos_iff_ne_zero.mp hins]
  · intro hi hins
    simp only [loopStep, advanceAndCheck_consecZero]
    rw [if_pos hi]
    simp [hins]
  · intro hi
    simp only [loopStep, advanceAndCheck_consecZero]
    rw [if_neg (by omega)]
  · intro h
    simp only [loopStep, advanceAndCheck_consecZero] at h
    exact advanceAndCheck_anomaly limY limM _ h
  · intro env fuel i t ht
    exact runLoop_stopped limY limM env fuel i t (by simp [ht])

/-- Witness for C9: a period that returned 5 items but inserted 0 new
rows pushes the streak from 49 to 50. -/
theorem c9_anomaly_halt_witness :
    (loopStep 2025 9 (.fetchOk c9Pages 0) c9State).consecZero = c9State.consecZero + 1 :=
  (c9_anomaly_halt 2025 9 c9State c9Pages 0).2.1 (by decide) rfl

/-- C7: a failed checkpoint load is fatal.  Whenever the `progress.json`
download yields nothing, the run returns `False` (non-zero exit), begins
no period fetch and issues no request, and no loop state is ever built —
in particular no synthetic checkpoint is substituted.  The only loader
that produces a default checkpoint, `load_progress` of `src/utils/db.py`,
passes a fetched row through unchanged and yields the default exactly
when its query succeeded with no stored row — a confirmed first-ever
run. -/
theorem c7_load_failure_fatal :
    (∀ env : MainEnv, env.download = none →
        (runMain env).ok = false
        ∧ (runMain env).loaded = false
        ∧ (runMain env).periodsFetched = 0
        ∧ (runMain env).requests = 0
        ∧ (runMain env).finalState = none)
    ∧ (∀ p, db_load_progress (some p) = p)
    ∧ db_load_progress none = db_default_progress := by
  refine ⟨?_, fun p => rfl, rfl⟩
  intro env h
  simp only [runMain]
  split_ifs <;> simp [h]

/-- Witness for C7: the concrete environment where remote storage is
reachable but the checkpoint object cannot be retrieved. -/
theorem c7_load_failure_fatal_witness :
    (runMain c7Env).ok = false
    ∧ (runMain c7Env).loaded = false
    ∧ (runMain c7Env).periodsFetched = 0
    ∧ (runMain c7Env).requests = 0
    ∧ (runMain c7Env).finalState = none :=
  c7_load_failure_fatal.1 c7Env rfl

/-- C8 counterexample: a run that loads its checkpoint and then
terminates through a fatal exception writes the local backup and sends an
error notification, but the remote checkpoint save
(`upload_progress_json`) is never attempted — it lives inside the `try`
block, not in the `finally` block, which only writes
`progress_backup.json`. -/
theorem c8_finalization_counterexample :
    (runMain c8FatalEnv).loaded = true
    ∧ (runMain c8FatalEnv).backupWritten = true
    ∧ (runMain c8FatalEnv).notifyAttempted = true
    ∧ (runMain c8FatalEnv).remoteSaveAttempted = false := by
  decide

/-- C8 amended: on every termination path of a run whose checkpoint
loaded, the local backup is written (the `finally` block) and a
notification is attempted (the summary on the normal path, an error
message on the fatal path); the remote checkpoint save, however, is
attempted exactly on the non-fatal paths — a fatal termination skips
it. -/
theorem c8_finalization_amended (env : MainEnv) (p : Progress)
    (hk : env.apiKeyPresent = true) (hd : env.dbOk = true)
    (hg : env.driveOk = true) (hl : env.download = some p) :
    (runMain env).loaded = true
    ∧ (runMain env).backupWritten = true
    ∧ (runMain env).notifyAttempted = true
    ∧ (runMain env).remoteSaveAttempted = !env.fatalMidRun := by
  simp only [runMain, hk, hd, hg, hl]
  cases hf : env.fatalMidRun <;> simp

/-- Witness for the C8 amended theorem at the fatal-termination
environment. -/
theorem c8_finalization_amended_witness :
    (runMain c8FatalEnv).loaded = true
    ∧ (runMain c8FatalEnv).backupWritten = true
    ∧ (runMain c8FatalEnv).notifyAttempted = true
    ∧ (runMain c8FatalEnv).remoteSaveAttempted = !c8FatalEnv.fatalMidRun :=
  c8_finalization_amended c8FatalEnv c2Progress rfl rfl rfl rfl

/-- A key is absent from the table exactly when no row carries it. -/
theorem hasKey_eq_false (t : List ContractRow) (k : String) :
    hasKey t k = false ↔ ∀ r ∈ t, r.unty_cntrct_no ≠ k := by
  simp [hasKey, List.any_eq_false]

/-- Key lookup across a one-row extension of the table. -/
theorem hasKey_append_single (t : List ContractRow) (r : ContractRow) (k : String) :
    hasKey (t ++ [r]) k = (hasKey t k || (r.unty_cntrct_no == k)) := by
  simp [hasKey, List.any_append]

/-- A conflict-ignoring statement over a batch of pairwise-distinct keys,
none already present, inserts every row and counts them all. -/
theorem insertBatch_fresh :
    ∀ (chunk t : List ContractRow) (c : Nat),
      (∀ x ∈ chunk, hasKey t x.unty_cntrct_no = false) →
      (chunk.map (fun r => r.unty_cntrct_no)).Nodup →
      chunk.foldl
        (fun acc r =>
          if hasKey acc.1 r.unty_cntrct_no then acc else (acc.1 ++ [r], acc.2 + 1))
        (t, c)
        = (t ++ chunk, c + chunk.length) := by
  intro chunk
  induction chunk with
  | nil => intro t c _ _; simp
  | cons r rest ih =>
    intro t c hfresh hnodup
    simp only [List.foldl_cons]
    rw [hfresh r (List.mem_cons_self r rest)]
    simp only [Bool.false_eq_true, if_false]
    simp only [List.map_cons] at hnodup
    obtain ⟨hnotmem, hnd⟩ := List.nodup_cons.mp hnodup
    have hfresh2 : ∀ x ∈ rest, hasKey (t ++ [r]) x.unty_cntrct_no = false := by
      intro x hx
      rw [hasKey_append_single]
      have h1 : hasKey t x.unty_cntrct_no = false :=
        hfresh x (List.mem_cons_of_mem r hx)
      have h2 : r.unty_cntrct_no ≠ x.unty_cntrct_no := by
        intro he
        exact hnotmem (by rw [he]; exact List.mem_map_of_mem _ hx)
      simp [h1, h2]
    rw [ih (t ++ [r]) (c + 1) hfresh2 hnd]
    simp [List.append_assoc]
    omega

/-- `insertBatch` form of `insertBatch_fresh`. -/
theorem insertBatch_fresh_apply (chunk t : List ContractRow)
    (h1 : ∀ x ∈ chunk, hasKey t x.unty_cntrct_no = false)
    (h2 : (chunk.map (fun r => r.unty_cntrct_no)).Nodup) :
    insertBatch t chunk = (t ++ chunk, chunk.length) := by
  unfold insertBatch
  rw [insertBatch_fresh chunk t 0 h1 h2, Nat.zero_add]

/-- Paging an empty value list yields no statements. -/
theorem chunksOfAux_nil (n fuel : Nat) : chunksOfAux n fuel [] = [] := by
  cases fuel <;> rfl

/-- Paging a nonempty value list takes one page and recurses. -/
theorem chunksOfAux_step (n fuel : Nat) (l : List ContractRow) (h : l ≠ []) :
    chunksOfAux n (fuel + 1) l = l.take n :: chunksOfAux n fuel (l.drop n) := by
  cases l with
  | nil => exact absurd rfl h
  | cons a t => rfl

/-- A nonempty value list that fits in one page is a single page. -/
theorem chunksOfAux_small (n : Nat) :
    ∀ (fuel : Nat) (l : List ContractRow), l ≠ [] → l.length ≤ n → 1 ≤ fuel →
      chunksOfAux n fuel l = [l] := by
  intro fuel l h1 h2 h3
  cases fuel with
  | zero => omega
  | succ m =>
    rw [chunksOfAux_step n m l h1]
    rw [List.take_of_length_le h2, List.drop_eq_nil_of_le h2, chunksOfAux_nil]

/-- The 501 keys are pairwise distinct (they have distinct lengths). -/
theorem c6Key_injective : Function.Injective c6Key := by
  intro i j h
  have hl : (c6Key i).length = (c6Key j).length := by rw [h]
  simpa [c6Key, String.length] using hl

/-- The key column of the 501-row batch is duplicate-free. -/
theorem c6Rows_keys_nodup : (c6Rows.map (fun r => r.unty_cntrct_no)).Nodup := by
  have he : c6Rows.map (fun r => r.unty_cntrct_no) = (List.range 501).map c6Key := by
    simp only [c6Rows, List.map_map]
    rfl
  rw [he]
  exact List.Nodup.map c6Key_injective (List.nodup_range 501)

/-- The batch holds 501 rows — one more than `page_size = 500`. -/
theorem c6Rows_length : c6Rows.length = 501 := by
  simp [c6Rows]

/-- Under `page_size = 500`, the 501-row batch splits into a 500-row
statement followed by a 1-row statement. -/
theorem c6_chunks : chunksOf 500 c6Rows = [c6Rows.take 500, c6Rows.drop 500] := by
  have hne : c6Rows ≠ [] := by
    intro h
    have := c6Rows_length
    rw [h] at this
    simp at this
  have h501 : c6Rows.length = 500 + 1 := c6Rows_length
  have hdne : c6Rows.drop 500 ≠ [] := by
    have hd : (c6Rows.drop 500).length = 1 := by
      rw [List.length_drop, c6Rows_length]
    intro h
    rw [h] at hd
    simp at hd
  have hdle : (c6Rows.drop 500).length ≤ 500 := by
    rw [List.length_drop, c6Rows_length]
    omega
  have hsmall := chunksOfAux_small 500 500 (c6Rows.drop 500) hdne hdle (by omega)
  calc chunksOf 500 c6Rows
      = chunksOfAux 500 c6Rows.length c6Rows := rfl
    _ = chunksOfAux 500 (500 + 1) c6Rows := by rw [h501]
    _ = c6Rows.take 500 :: chunksOfAux 500 500 (c6Rows.drop 500) :=
        chunksOfAux_step 500 500 c6Rows hne
    _ = [c6Rows.take 500, c6Rows.drop 500] := by rw [hsmall]

/-- `insert_contracts` on a two-page batch: the table receives both
statements, and the returned count is the second statement's `rowcount`
alone. -/
theorem insert_contracts_pair (t rows : List ContractRow)
    (hne : rows.isEmpty = false)
    (hch : chunksOf 500 rows = [rows.take 500, rows.drop 500])
    (t1 : List ContractRow) (c1 : Nat)
    (hb1 : insertBatch t (rows.take 500) = (t1, c1))
    (t2 : List ContractRow) (c2 : Nat)
    (hb2 : insertBatch t1 (rows.drop 500) = (t2, c2)) :
    insert_contracts t rows = (t2, c2) := by
  simp only [insert_contracts, hne, Bool.false_eq_true, if_false]
  rw [hch]
  simp only [List.foldl_cons, List.foldl_nil]
  rw [hb1]
  rw [show ((t1, c1) : List ContractRow × Nat).1 = t1 from rfl]
  rw [hb2]

/-- C6 (code bug): inserting 501 rows with pairwise-distinct fresh keys
into an empty table actually inserts all 501 — yet `insert_contracts`
returns 1, the `cur.rowcount` of the last 1-row page that
`execute_values(page_size=500)` executed, not the 501 the docstring
("return the actual number inserted") and the claim promise. -/
theorem c6_insert_count_bug :
    insert_contracts [] c6Rows = (c6Rows, 1)
    ∧ c6Rows.length = 501
    ∧ (c6Rows.map (fun r => r.unty_cntrct_no)).Nodup := by
  refine ⟨?_, c6Rows_length, c6Rows_keys_nodup⟩
  have hne : c6Rows.isEmpty = false := by
    cases h : c6Rows with
    | nil =>
      have := c6Rows_length
      rw [h] at this
      simp at this
    | cons a t => rfl
  have hsplitkeys :
      c6Rows.map (fun r => r.unty_cntrct_no)
        = (c6Rows.take 500).map (fun r => r.unty_cntrct_no)
          ++ (c6Rows.drop 500).map (fun r => r.unty_cntrct_no) := by
    rw [← List.map_append, List.take_append_drop]
  have hnodup := c6Rows_keys_nodup
  rw [hsplitkeys] at hnodup
  obtain ⟨hn1, hn2, hdisj⟩ := List.nodup_append.mp hnodup
  have hfresh1 : ∀ x ∈ c6Rows.take 500, hasKey [] x.unty_cntrct_no = false :=
    fun x _ => rfl
  have hfresh2 : ∀ x ∈ c6Rows.drop 500,
      hasKey (c6Rows.take 500) x.unty_cntrct_no = false := by
    intro x hx
    rw [hasKey_eq_false]
    intro r hr he
    apply hdisj (List.mem_map_of_mem _ hr)
    rw [he]
    exact List.mem_map_of_mem _ hx
  have hlen2 : (c6Rows.drop 500).length = 1 := by
    rw [List.length_drop, c6Rows_length]
  have hb1 := insertBatch_fresh_apply (c6Rows.take 500) [] hfresh1 hn1
  rw [List.nil_append] at hb1
  have hb2 := insertBatch_fresh_apply (c6Rows.drop 500) (c6Rows.take 500) hfresh2 hn2
  rw [List.take_append_drop, hlen2] at hb2
  exact insert_contracts_pair [] c6Rows hne c6_chunks
    (c6Rows.take 500) (c6Rows.take 500).length hb1 c6Rows 1 hb2
